import Mathlib

/-!
Verification development for the `businessdatetime` package.

The package wraps Python `datetime` values and computes working-hours-aware
arithmetic.  We embed a `datetime` as an integer number of seconds counted
from 0001-01-01 00:00:00 (proleptic Gregorian; that day is a Monday, so the
day number taken modulo 7 is exactly Python's `weekday()`, Monday = 0).
A `timedelta` is likewise an integer number of seconds.  All quantities the
source manipulates (hours, minutes, seconds, whole days) are integral, so
integer seconds model the `datetime`/`timedelta` arithmetic exactly.

Python expressions are embedded as follows:
* `datetime(dt.year, dt.month, dt.day, H, M)` is the timestamp on `dt`'s
  calendar day at `H:M:00`, i.e. `86400 * (dt's day number) + H*3600 + M*60`
  (`atTime` below);
* `dt.weekday()` is the day number modulo 7 (`dayWeekday`);
* `dt.day` (the day-of-month field) is computed from the day number with the
  standard Gregorian civil-from-days conversion (`dayOfMonth`);
* `dt + timedelta(days=1)` is `dt + 86400`;
* comparison of `datetime` values is integer comparison;
* the `while` loops of the source are written with an explicit fuel
  argument and return `none` when the fuel runs out (the loops of the
  source do not terminate for every configuration, e.g. an empty
  `working_days` tuple makes them spin forever).
-/

/-- Day number of a timestamp: days since 0001-01-01 (floor division,
matching Python's date arithmetic). -/
def dayOf (t : ℤ) : ℤ := t / 86400

/-- Python's `weekday()` for a day number: Monday = 0 .. Sunday = 6.
Day 0 (0001-01-01) is a Monday in the proleptic Gregorian calendar. -/
def dayWeekday (d : ℤ) : ℤ := d % 7

/-- Embedding of `datetime(dt.year, dt.month, dt.day, h, m)`:
the same calendar day as `t`, at time `h:m:00`. -/
def atTime (t h m : ℤ) : ℤ := 86400 * dayOf t + (h * 3600 + m * 60)

/-- Days since 0001-01-01 of the Gregorian date `y-m-d`
(standard days-from-civil conversion). -/
def daysFromCivil (y m d : ℤ) : ℤ :=
  let y2 : ℤ := y - (if m ≤ 2 then 1 else 0)
  let era : ℤ := Int.ediv y2 400
  let yoe : ℤ := y2 - era * 400
  let mp : ℤ := m + (if 2 < m then -3 else 9)
  let doy : ℤ := Int.ediv (153 * mp + 2) 5 + d - 1
  let doe : ℤ := yoe * 365 + Int.ediv yoe 4 - Int.ediv yoe 100 + doy
  era * 146097 + doe - 306

/-- Embedding of `datetime(y, mo, d, h, mi, s)` as seconds since
0001-01-01 00:00:00. -/
def mk_datetime (y mo d h mi s : ℤ) : ℤ :=
  86400 * daysFromCivil y mo d + 3600 * h + 60 * mi + s

/-- Python's `.day` field (day of month, 1..31) of a day number
(standard civil-from-days conversion; only the day component is kept). -/
def dayOfMonth (day : ℤ) : ℤ :=
  let z : ℤ := day + 306
  let era : ℤ := Int.ediv z 146097
  let doe : ℤ := z - era * 146097
  let yoe : ℤ :=
    Int.ediv (doe - Int.ediv doe 1460 + Int.ediv doe 36524 - Int.ediv doe 146096) 365
  let doy : ℤ := doe - (365 * yoe + Int.ediv yoe 4 - Int.ediv yoe 100)
  let mp : ℤ := Int.ediv (5 * doy + 2) 153
  doy - Int.ediv (153 * mp + 2) 5 + 1

/-- The configuration state shared by `BusinessDatetime.__init__` and
`BusinessDatetimeCalculator.__init__`: the derived working-hour fields,
the working weekday tuple and the (unused) holiday list.  Holidays are a
list of timestamps in the source; their content is never read. -/
structure Config where
  start_working_hour : ℤ
  start_working_minute : ℤ
  end_working_hour : ℤ
  end_working_minute : ℤ
  working_days : List ℤ
  holidays : Option (List ℤ)
deriving DecidableEq

/-- The body of both constructors: `divmod(frac * 60, 60)` followed by
`int(...)` on each component.  For a fractional hour `q` the quotient is
`⌊q⌋` and the remainder is `q*60 - 60*⌊q⌋`, truncated to an integer
(the remainder is nonnegative, so truncation is the floor). -/
def mkConfig (working_hours : ℚ × ℚ) (working_days : List ℤ)
    (holidays : Option (List ℤ)) : Config :=
  { start_working_hour := ⌊working_hours.1⌋
    start_working_minute := ⌊working_hours.1 * 60⌋ - 60 * ⌊working_hours.1⌋
    end_working_hour := ⌊working_hours.2⌋
    end_working_minute := ⌊working_hours.2 * 60⌋ - 60 * ⌊working_hours.2⌋
    working_days := working_days
    holidays := holidays }

/-- The default constructor arguments:
`working_hours=(8.5, 17), working_days=(0, 1, 2, 3, 4), holidays=None`. -/
def defaultConfig : Config := mkConfig (8.5, 17) [0, 1, 2, 3, 4] none

/-- A Mon-Fri clock with working hours `(9, 17)`, used by the scenarios. -/
def clock9to17 : Config := mkConfig (9, 17) [0, 1, 2, 3, 4] none

/-- `self.current_work_day_end` / `get_work_day_end`: today's date at the
end working hour and minute. -/
def current_work_day_end (cfg : Config) (t : ℤ) : ℤ :=
  atTime t cfg.end_working_hour cfg.end_working_minute

/-- `self.current_work_day_start` / `get_work_day_start`: today's date at
the start working hour and minute. -/
def current_work_day_start (cfg : Config) (t : ℤ) : ℤ :=
  atTime t cfg.start_working_hour cfg.start_working_minute

/-- The `while d.weekday() not in self.working_days` search loops of
`next_business_day_start` and `previous_business_day_end`: starting from
`d`, step by `s` seconds (`s = ±86400`, one calendar day) until the
weekday lies in `wd`.  `fuel` bounds the number of probes; 7 consecutive
days cover every weekday, so fuel 7 suffices whenever `wd` names a real
weekday. -/
def scanWorking (wd : List ℤ) (s : ℤ) : ℕ → ℤ → Option ℤ
  | 0, _ => none
  | n + 1, d =>
    if dayWeekday (dayOf d) ∈ wd then some d else scanWorking wd s n (d + s)

/-- `BusinessDatetime.next_business_day_start`: today's date at the start
working time, plus one day, advanced day by day to a working weekday. -/
def next_business_day_start (cfg : Config) (t : ℤ) : Option ℤ :=
  scanWorking cfg.working_days 86400 7 (current_work_day_start cfg t + 86400)

/-- `BusinessDatetime.previous_business_day_end`: today's date at the end
working time, minus one day, stepped back day by day to a working weekday. -/
def previous_business_day_end (cfg : Config) (t : ℤ) : Option ℤ :=
  scanWorking cfg.working_days (-86400) 7 (current_work_day_end cfg t - 86400)

/-- `BusinessDatetime.rollforward`: `next_business_day_start + (original -
current_work_day_end)`. -/
def rollforward (cfg : Config) (t : ℤ) : Option ℤ :=
  (next_business_day_start cfg t).map (fun nxt => nxt + (t - current_work_day_end cfg t))

/-- `BusinessDatetime.rollback`: `previous_business_day_end -
(current_work_day_start - original)`. -/
def rollback (cfg : Config) (t : ℤ) : Option ℤ :=
  (previous_business_day_end cfg t).map (fun prev => prev - (current_work_day_start cfg t - t))

/-- `BusinessDatetime.business_datetime`: roll forward past the end of the
working day, roll back before its start, otherwise return the original
timestamp unchanged. -/
def business_datetime (cfg : Config) (t : ℤ) : Option ℤ :=
  if t > current_work_day_end cfg t then rollforward cfg t
  else if t < current_work_day_start cfg t then rollback cfg t
  else some t

/-- `BusinessDatetimeCalculator.remaining_time`: seconds left in the work
day of the raw timestamp `t`. -/
def remaining_time (cfg : Config) (t : ℤ) : ℤ := current_work_day_end cfg t - t

/-- `BusinessDatetimeCalculator.passed_time`: seconds since the start of
the work day of the raw timestamp `t`. -/
def passed_time (cfg : Config) (t : ℤ) : ℤ := t - current_work_day_start cfg t

/-- The day-walk loop shared by `calc_diff` and `subtract`:

`while d.day != greater.day: d += timedelta(days=1); if d.weekday() not in
working_days: dont_count_days += 1; day_difference += 1`.

Note the guard compares the day-of-month field only.  Returns
`(day_difference, dont_count_days)`, or `none` when the fuel runs out. -/
def dayWalk (wd : List ℤ) (targetDom : ℤ) : ℕ → ℤ → ℤ → ℤ → Option (ℤ × ℤ)
  | 0, d, dd, dc => if dayOfMonth (dayOf d) = targetDom then some (dd, dc) else none
  | n + 1, d, dd, dc =>
    if dayOfMonth (dayOf d) = targetDom then some (dd, dc)
    else
      dayWalk wd targetDom n (d + 86400) (dd + 1)
        (dc + if dayWeekday (dayOf (d + 86400)) ∈ wd then 0 else 1)

/-- `seconds_in_workday` as computed in `BusinessDatetimeCalculator.subtract`:
`((end_h*60 + end_m)*60) - ((start_h*60 + start_m)*60)`. -/
def seconds_in_workday (cfg : Config) : ℤ :=
  (cfg.end_working_hour * 60 + cfg.end_working_minute) * 60 -
    (cfg.start_working_hour * 60 + cfg.start_working_minute) * 60

/-- `BusinessDatetimeCalculator.subtract`: take the lesser and greater of
the two raw inputs, sum the time remaining in the lesser's work day, the
time passed in the greater's work day and a full workday for each working
day counted by the day walk (minus one), and return the total in seconds. -/
def subtract (cfg : Config) (fuel : ℕ) (d1 d2 : ℤ) : Option ℤ :=
  (dayWalk cfg.working_days (dayOfMonth (dayOf (max d1 d2))) fuel (min d1 d2) 0 0).map
    (fun p =>
      remaining_time cfg (min d1 d2) + passed_time cfg (max d1 d2) +
        (p.1 - 1 - p.2) * seconds_in_workday cfg)

/-- `BusinessDatetime.calc_diff`: like `subtract` but each endpoint is a
`BusinessDatetime` object carrying its own configuration; the remaining
time uses `other`'s window on `other`'s original date against `other`'s
normalized timestamp, the passed time uses `self`'s, the day walk runs
from `other.business_datetime` to `self.business_datetime.day` with
`self`'s working days, and the workday length comes from `self`'s window. -/
def calc_diff (selfCfg otherCfg : Config) (selfT otherT : ℤ) (fuel : ℕ) : Option ℤ := do
  let sb ← business_datetime selfCfg selfT
  let ob ← business_datetime otherCfg otherT
  let p ← dayWalk selfCfg.working_days (dayOfMonth (dayOf sb)) fuel ob 0 0
  pure ((current_work_day_end otherCfg otherT - ob) +
    (sb - current_work_day_start selfCfg selfT) +
    (p.1 - 1 - p.2) *
      (current_work_day_end selfCfg selfT - current_work_day_start selfCfg selfT))

/-- The error type named by the specification.  It does not occur anywhere
in the source. -/
inductive ConfigurationError
  | invalidConfig
deriving DecidableEq

/-- The error the `datetime(...)` constructor raises when an argument is
out of range. -/
inductive ValueError
  | valueError
deriving DecidableEq

/-- `BusinessDatetimeCalculator.__init__` embedded as a fallible call: its
body only runs `divmod`/`int` on the fractions and stores the tuples — it
builds no `datetime` and contains no validation and no `raise`, so
construction always succeeds. -/
def calculatorInit (s e : ℚ) (wd : List ℤ) (hol : Option (List ℤ)) :
    Except ConfigurationError Config :=
  Except.ok (mkConfig (s, e) wd hol)

/-- Embedding of a `datetime(dt.year, dt.month, dt.day, h, m)` call
including the constructor's argument validation: `datetime` raises
`ValueError` when the hour is outside 0..23 or the minute outside 0..59
(the year, month and day come from an existing datetime and are always
valid). -/
def mk_same_day_checked (t h m : ℤ) : Except ValueError ℤ :=
  if 0 ≤ h ∧ h ≤ 23 ∧ 0 ≤ m ∧ m ≤ 59 then Except.ok (atTime t h m)
  else Except.error ValueError.valueError

/-- `BusinessDatetime.__init__`: derives the same config fields as
`mkConfig`, then eagerly builds `self.current_work_day_end =
datetime(dt.year, dt.month, dt.day, end_hour, end_minute)` followed by
`self.current_work_day_start = datetime(..., start_hour, start_minute)`;
each `datetime(...)` call can raise `ValueError`.  Returns the stored
state `(config, current_work_day_end, current_work_day_start)`. -/
def businessDatetimeInit (dt : ℤ) (s e : ℚ) (wd : List ℤ) (hol : Option (List ℤ)) :
    Except ValueError (Config × ℤ × ℤ) :=
  match mk_same_day_checked dt ⌊e⌋ (⌊e * 60⌋ - 60 * ⌊e⌋) with
  | Except.error err => Except.error err
  | Except.ok wend =>
    match mk_same_day_checked dt ⌊s⌋ (⌊s * 60⌋ - 60 * ⌊s⌋) with
    | Except.error err => Except.error err
    | Except.ok wstart => Except.ok (mkConfig (s, e) wd hol, wend, wstart)

/-- Follows the spec's words, for comparison with `sourceInit`:
construction fails with `ConfigurationError` if the start fraction is not
below the end fraction, if either fraction lies outside `[0, 24)`, or if
the working-weekday set is empty. -/
def specInit (s e : ℚ) (wd : List ℤ) (hol : Option (List ℤ)) :
    Except ConfigurationError Config :=
  if e ≤ s ∨ s < 0 ∨ 24 ≤ s ∨ e < 0 ∨ 24 ≤ e ∨ wd = [] then
    Except.error ConfigurationError.invalidConfig
  else Except.ok (mkConfig (s, e) wd hol)

/-- `BusinessDatetime.__sub__` on a `timedelta` operand: returns
`BusinessDatetime(self.business_datetime - other)`, a new object whose
original timestamp is the normalized receiver minus the delta and whose
configuration is the constructor's defaults. -/
def bd_sub_timedelta (cfg : Config) (t td : ℤ) : Option (Config × ℤ) :=
  (business_datetime cfg t).map (fun b => (defaultConfig, b - td))

/-! ## Helper lemmas -/

/-- The weekday search loop, characterised: if some probe within the fuel
bound hits a working weekday, the loop returns the first such probe. -/
theorem scanWorking_spec (wd : List ℤ) (s : ℤ) :
    ∀ (n : ℕ) (d0 : ℤ),
      (∃ j : ℕ, j < n ∧ dayWeekday (dayOf (d0 + s * j)) ∈ wd) →
      ∃ k : ℕ, k < n ∧ scanWorking wd s n d0 = some (d0 + s * k) ∧
        dayWeekday (dayOf (d0 + s * k)) ∈ wd ∧
        ∀ j : ℕ, j < k → dayWeekday (dayOf (d0 + s * j)) ∉ wd := by
  intro n
  induction n with
  | zero =>
    rintro d0 ⟨j, hj, -⟩
    omega
  | succ n ih =>
    rintro d0 ⟨j, hj, hjmem⟩
    by_cases h0 : dayWeekday (dayOf d0) ∈ wd
    · refine ⟨0, Nat.succ_pos n, ?_, ?_, ?_⟩
      · simp [scanWorking, h0]
      · simpa using h0
      · intro j hj
        omega
    · have hj0 : j ≠ 0 := by
        rintro rfl
        exact h0 (by simpa using hjmem)
      obtain ⟨j', rfl⟩ := Nat.exists_eq_succ_of_ne_zero hj0
      have hshift : d0 + s * ((j' : ℤ) + 1) = (d0 + s) + s * j' := by ring
      have hmem' : dayWeekday (dayOf ((d0 + s) + s * j')) ∈ wd := by
        rw [← hshift]
        simpa [Nat.cast_succ] using hjmem
      obtain ⟨k, hk, hscan, hkmem, hmin⟩ := ih (d0 + s) ⟨j', by omega, hmem'⟩
      refine ⟨k + 1, by omega, ?_, ?_, ?_⟩
      · have hstep : scanWorking wd s (n + 1) d0 = scanWorking wd s n (d0 + s) := by
          simp [scanWorking, h0]
        rw [hstep, hscan]
        congr 1
        push_cast
        ring
      · have : d0 + s * ((k : ℤ) + 1) = (d0 + s) + s * k := by ring
        simpa [Nat.cast_succ, this] using hkmem
      · intro j hjk
        cases j with
        | zero => simpa using h0
        | succ j'' =>
          have hs : d0 + s * ((j'' : ℤ) + 1) = (d0 + s) + s * j'' := by ring
          simpa [Nat.cast_succ, hs] using hmin j'' (by omega)

/-- Among seven consecutive days going forward there is one with any given
weekday. -/
theorem exists_weekday_add (D w : ℤ) (h0 : 0 ≤ w) (h7 : w < 7) :
    ∃ j : ℕ, j < 7 ∧ (D + j) % 7 = w := by
  have hr0 : 0 ≤ (w - D) % 7 := Int.emod_nonneg _ (by norm_num)
  have hr7 : (w - D) % 7 < 7 := Int.emod_lt_of_pos _ (by norm_num)
  refine ⟨((w - D) % 7).toNat, by omega, ?_⟩
  rw [Int.toNat_of_nonneg hr0]
  omega

/-- Among seven consecutive days going backward there is one with any given
weekday. -/
theorem exists_weekday_sub (D w : ℤ) (h0 : 0 ≤ w) (h7 : w < 7) :
    ∃ j : ℕ, j < 7 ∧ (D - j) % 7 = w := by
  have hr0 : 0 ≤ (D - w) % 7 := Int.emod_nonneg _ (by norm_num)
  have hr7 : (D - w) % 7 < 7 := Int.emod_lt_of_pos _ (by norm_num)
  refine ⟨((D - w) % 7).toNat, by omega, ?_⟩
  rw [Int.toNat_of_nonneg hr0]
  omega

/-- A timestamp between the current day's start and end is returned
unchanged by `business_datetime`. -/
theorem business_of_inWindow (cfg : Config) (t : ℤ)
    (h1 : current_work_day_start cfg t ≤ t) (h2 : t ≤ current_work_day_end cfg t) :
    business_datetime cfg t = some t := by
  unfold business_datetime
  rw [if_neg (by omega), if_neg (by omega)]

/-- Evaluation of the default configuration fields: 8.5 becomes 08:30
and 17 becomes 17:00. -/
theorem defaultConfig_eq :
    defaultConfig =
      { start_working_hour := 8, start_working_minute := 30, end_working_hour := 17,
        end_working_minute := 0, working_days := [0, 1, 2, 3, 4], holidays := none } := by
  unfold defaultConfig mkConfig
  norm_num

/-- Evaluation of the `(9, 17)` clock's fields. -/
theorem clock9to17_eq :
    clock9to17 =
      { start_working_hour := 9, start_working_minute := 0, end_working_hour := 17,
        end_working_minute := 0, working_days := [0, 1, 2, 3, 4], holidays := none } := by
  unfold clock9to17 mkConfig
  norm_num

/-! ## Claims -/

/-- C1, counterexample: `subtract` is not antisymmetric.  One hour apart on
the same Monday gives 3600 seconds in both argument orders, and 3600 is not
the negation of 3600. -/
theorem subtract_antisymmetry_counterexample :
    subtract defaultConfig 400 (mk_datetime 2016 6 6 9 0 0) (mk_datetime 2016 6 6 10 0 0) =
        some 3600 ∧
      subtract defaultConfig 400 (mk_datetime 2016 6 6 10 0 0) (mk_datetime 2016 6 6 9 0 0) =
        some 3600 ∧
      subtract defaultConfig 400 (mk_datetime 2016 6 6 9 0 0) (mk_datetime 2016 6 6 10 0 0) ≠
        (subtract defaultConfig 400 (mk_datetime 2016 6 6 10 0 0)
            (mk_datetime 2016 6 6 9 0 0)).map (fun x => -x) := by
  rw [defaultConfig_eq]
  decide

/-- C1, amended: `subtract` is fully symmetric.  It takes the minimum and
maximum of its two raw arguments before computing anything, so the result
is the same unsigned duration in both argument orders and carries no sign. -/
theorem subtract_symmetric (cfg : Config) (fuel : ℕ) (a b : ℤ) :
    subtract cfg fuel a b = subtract cfg fuel b a := by
  unfold subtract
  rw [min_comm b a, max_comm b a]

/-- A fraction's derived hour `⌊q⌋` is a valid datetime hour exactly when
the fraction lies in `[0, 24)`. -/
theorem hour_range_iff (q : ℚ) : (0 ≤ ⌊q⌋ ∧ ⌊q⌋ ≤ 23) ↔ (0 ≤ q ∧ q < 24) := by
  constructor
  · rintro ⟨h1, h2⟩
    refine ⟨?_, ?_⟩
    · exact_mod_cast Int.le_floor.mp h1
    · have h3 : ⌊q⌋ < 24 := by omega
      exact_mod_cast Int.floor_lt.mp h3
  · rintro ⟨h1, h2⟩
    refine ⟨?_, ?_⟩
    · exact Int.le_floor.mpr (by exact_mod_cast h1)
    · have h3 : ⌊q⌋ < 24 := Int.floor_lt.mpr (by exact_mod_cast h2)
      omega

/-- A fraction's derived minute `⌊q*60⌋ - 60*⌊q⌋` is always a valid
datetime minute, for every rational fraction. -/
theorem minute_bounds (q : ℚ) : 0 ≤ ⌊q * 60⌋ - 60 * ⌊q⌋ ∧ ⌊q * 60⌋ - 60 * ⌊q⌋ ≤ 59 := by
  have hfl : ((⌊q⌋ : ℚ)) ≤ q := Int.floor_le q
  have hfu : q < (⌊q⌋ : ℚ) + 1 := Int.lt_floor_add_one q
  have h1 : ((60 * ⌊q⌋ : ℤ) : ℚ) ≤ q * 60 := by
    push_cast
    linarith
  have h2 : q * 60 < ((60 * ⌊q⌋ + 60 : ℤ) : ℚ) := by
    push_cast
    linarith
  have h3 : (60 * ⌊q⌋ : ℤ) ≤ ⌊q * 60⌋ := Int.le_floor.mpr h1
  have h4 : ⌊q * 60⌋ < 60 * ⌊q⌋ + 60 := Int.floor_lt.mpr h2
  omega

/-- The checked datetime constructor succeeds when its arguments are in
range. -/
theorem mk_same_day_checked_ok (t h m : ℤ)
    (hc : 0 ≤ h ∧ h ≤ 23 ∧ 0 ≤ m ∧ m ≤ 59) :
    mk_same_day_checked t h m = Except.ok (atTime t h m) := by
  unfold mk_same_day_checked
  rw [if_pos hc]

/-- The checked datetime constructor fails when an argument is out of
range. -/
theorem mk_same_day_checked_err (t h m : ℤ)
    (hc : ¬(0 ≤ h ∧ h ≤ 23 ∧ 0 ≤ m ∧ m ≤ 59)) :
    mk_same_day_checked t h m = Except.error ValueError.valueError := by
  unfold mk_same_day_checked
  rw [if_neg hc]

/-- C2, counterexample: with the start fraction 17 not below the end
fraction 8.5 the spec's contract demands an eager `ConfigurationError`,
but both source constructors succeed; and with the end fraction 25
outside `[0, 24)` the calculator still succeeds while
`BusinessDatetime.__init__` fails with the datetime constructor's
`ValueError` rather than any `ConfigurationError`. -/
theorem constructor_validation_counterexample :
    specInit 17 8.5 [0, 1, 2, 3, 4] none =
        Except.error ConfigurationError.invalidConfig ∧
      calculatorInit 17 8.5 [0, 1, 2, 3, 4] none =
        Except.ok (mkConfig (17, 8.5) [0, 1, 2, 3, 4] none) ∧
      calculatorInit 17 8.5 [0, 1, 2, 3, 4] none ≠ specInit 17 8.5 [0, 1, 2, 3, 4] none ∧
      businessDatetimeInit (mk_datetime 2016 6 6 8 30 0) 17 8.5 [0, 1, 2, 3, 4] none =
        Except.ok (mkConfig (17, 8.5) [0, 1, 2, 3, 4] none,
          atTime (mk_datetime 2016 6 6 8 30 0) 8 30,
          atTime (mk_datetime 2016 6 6 8 30 0) 17 0) ∧
      calculatorInit 8.5 25 [0, 1, 2, 3, 4] none =
        Except.ok (mkConfig (8.5, 25) [0, 1, 2, 3, 4] none) ∧
      businessDatetimeInit (mk_datetime 2016 6 6 8 30 0) 8.5 25 [0, 1, 2, 3, 4] none =
        Except.error ValueError.valueError := by
  refine ⟨?_, rfl, ?_, ?_, rfl, ?_⟩
  · unfold specInit
    rw [if_pos]
    norm_num
  · intro h
    unfold calculatorInit specInit at h
    rw [if_pos (by norm_num)] at h
    exact Except.noConfusion h
  · unfold businessDatetimeInit
    rw [mk_same_day_checked_ok _ _ _ (by norm_num), mk_same_day_checked_ok _ _ _ (by norm_num)]
    norm_num
  · unfold businessDatetimeInit
    rw [mk_same_day_checked_err _ _ _ (by norm_num)]

/-- C2, amended: no `ConfigurationError` exists and no parameter
validation is performed.  `BusinessDatetimeCalculator.__init__` never
fails, for any parameters (start at or above end, out-of-range fractions
and an empty working-day tuple are all accepted).
`BusinessDatetime.__init__` performs no validation either, but eagerly
constructs the current day's end and start datetimes, so it fails — with
the datetime constructor's `ValueError`, not a `ConfigurationError` —
exactly when some fraction lies outside `[0, 24)` (its derived hour then
falls outside 0..23; derived minutes are always in range); start at or
above end and an empty working-day set are accepted silently there too. -/
theorem constructor_behavior (s e : ℚ) (wd : List ℤ) (hol : Option (List ℤ)) (dt : ℤ)
    (err : ConfigurationError) :
    calculatorInit s e wd hol = Except.ok (mkConfig (s, e) wd hol) ∧
      calculatorInit s e wd hol ≠ Except.error err ∧
      ((∃ st, businessDatetimeInit dt s e wd hol = Except.ok st) ↔
        (0 ≤ s ∧ s < 24 ∧ 0 ≤ e ∧ e < 24)) := by
  refine ⟨rfl, ?_, ?_⟩
  · intro h
    unfold calculatorInit at h
    exact Except.noConfusion h
  · have hmS := minute_bounds s
    have hmE := minute_bounds e
    constructor
    · rintro ⟨st, hst⟩
      unfold businessDatetimeInit at hst
      by_cases hE : 0 ≤ ⌊e⌋ ∧ ⌊e⌋ ≤ 23
      · by_cases hS : 0 ≤ ⌊s⌋ ∧ ⌊s⌋ ≤ 23
        · have he24 := (hour_range_iff e).mp hE
          have hs24 := (hour_range_iff s).mp hS
          exact ⟨hs24.1, hs24.2, he24.1, he24.2⟩
        · rw [mk_same_day_checked_ok _ _ _ ⟨hE.1, hE.2, hmE.1, hmE.2⟩,
            mk_same_day_checked_err _ _ _ (by tauto)] at hst
          exact Except.noConfusion hst
      · rw [mk_same_day_checked_err _ _ _ (by tauto)] at hst
        exact Except.noConfusion hst
    · rintro ⟨hs0, hs24, he0, he24⟩
      have hE := (hour_range_iff e).mpr ⟨he0, he24⟩
      have hS := (hour_range_iff s).mpr ⟨hs0, hs24⟩
      refine ⟨(mkConfig (s, e) wd hol,
        atTime dt ⌊e⌋ (⌊e * 60⌋ - 60 * ⌊e⌋), atTime dt ⌊s⌋ (⌊s * 60⌋ - 60 * ⌊s⌋)), ?_⟩
      unfold businessDatetimeInit
      rw [mk_same_day_checked_ok _ _ _ ⟨hE.1, hE.2, hmE.1, hmE.2⟩,
        mk_same_day_checked_ok _ _ _ ⟨hS.1, hS.2, hmS.1, hmS.2⟩]

/-- C3, counterexample: `BusinessDatetimeCalculator.subtract` does not
normalize its endpoints.  Saturday 2016-06-04 08:00 normalizes to Friday
2016-06-03 16:30, yet `subtract` against Monday 10:00 answers 37800 seconds
on the raw input and 7200 seconds on the normalized input. -/
theorem subtract_normalization_counterexample :
    business_datetime defaultConfig (mk_datetime 2016 6 4 8 0 0) =
        some (mk_datetime 2016 6 3 16 30 0) ∧
      business_datetime defaultConfig (mk_datetime 2016 6 6 10 0 0) =
        some (mk_datetime 2016 6 6 10 0 0) ∧
      subtract defaultConfig 400 (mk_datetime 2016 6 6 10 0 0) (mk_datetime 2016 6 4 8 0 0) =
        some 37800 ∧
      subtract defaultConfig 400 (mk_datetime 2016 6 6 10 0 0)
          (mk_datetime 2016 6 3 16 30 0) =
        some 7200 ∧
      subtract defaultConfig 400 (mk_datetime 2016 6 6 10 0 0) (mk_datetime 2016 6 4 8 0 0) ≠
        subtract defaultConfig 400 (mk_datetime 2016 6 6 10 0 0)
          (mk_datetime 2016 6 3 16 30 0) := by
  rw [defaultConfig_eq]
  decide

/-- C3, amended: `subtract` computes directly on its raw inputs; it agrees
with the difference of the normalized forms when both inputs already lie
inside their day's business window, because normalization then returns
them unchanged.  (In general the two differ, as the counterexample shows.) -/
theorem subtract_in_window_normalized (cfg : Config) (fuel : ℕ) (a b : ℤ)
    (ha1 : current_work_day_start cfg a ≤ a) (ha2 : a ≤ current_work_day_end cfg a)
    (hb1 : current_work_day_start cfg b ≤ b) (hb2 : b ≤ current_work_day_end cfg b) :
    ∃ na nb, business_datetime cfg a = some na ∧ business_datetime cfg b = some nb ∧
      subtract cfg fuel a b = subtract cfg fuel na nb :=
  ⟨a, b, business_of_inWindow cfg a ha1 ha2, business_of_inWindow cfg b hb1 hb2, rfl⟩

/-- Witness for C3's amended theorem at two in-window timestamps. -/
theorem subtract_in_window_normalized_witness :
    (current_work_day_start defaultConfig (mk_datetime 2016 6 6 9 0 0) ≤
          mk_datetime 2016 6 6 9 0 0 ∧
        mk_datetime 2016 6 6 9 0 0 ≤ current_work_day_end defaultConfig (mk_datetime 2016 6 6 9 0 0) ∧
        current_work_day_start defaultConfig (mk_datetime 2016 6 7 10 0 0) ≤
          mk_datetime 2016 6 7 10 0 0 ∧
        mk_datetime 2016 6 7 10 0 0 ≤
          current_work_day_end defaultConfig (mk_datetime 2016 6 7 10 0 0)) ∧
      ∃ na nb,
        business_datetime defaultConfig (mk_datetime 2016 6 6 9 0 0) = some na ∧
          business_datetime defaultConfig (mk_datetime 2016 6 7 10 0 0) = some nb ∧
          subtract defaultConfig 400 (mk_datetime 2016 6 6 9 0 0) (mk_datetime 2016 6 7 10 0 0) =
            subtract defaultConfig 400 na nb :=
  ⟨⟨by rw [defaultConfig_eq]; decide, by rw [defaultConfig_eq]; decide,
      by rw [defaultConfig_eq]; decide, by rw [defaultConfig_eq]; decide⟩,
    subtract_in_window_normalized defaultConfig 400 _ _
      (by rw [defaultConfig_eq]; decide) (by rw [defaultConfig_eq]; decide)
      (by rw [defaultConfig_eq]; decide) (by rw [defaultConfig_eq]; decide)⟩

/-- C4, failing input: the day walk compares the day-of-month field only
(`while d.day != greater_date.day`), so from 2016-06-06 09:00 to
2016-07-06 09:00 — exactly 30 calendar days apart — the loop exits
immediately and `subtract` answers 0 working seconds for a month-long span. -/
theorem subtract_month_span_bug :
    dayOf (mk_datetime 2016 7 6 9 0 0) - dayOf (mk_datetime 2016 6 6 9 0 0) = 30 ∧
      subtract defaultConfig 400 (mk_datetime 2016 6 6 9 0 0) (mk_datetime 2016 7 6 9 0 0) =
        some 0 := by
  rw [defaultConfig_eq]
  decide

/-- C5: when both endpoints lie on the same calendar day the day walk does
not execute and the `-1` in `day_difference - 1 - dont_count_days` exactly
cancels one workday, so `subtract` degenerates to `greater - lesser`; in
particular `subtract a a = 0` for every timestamp and every clock. -/
theorem subtract_same_day (cfg : Config) (fuel : ℕ) (a b : ℤ) (h : dayOf a = dayOf b) :
    subtract cfg fuel a b = some (max a b - min a b) := by
  have hminmax : dayOf (min a b) = dayOf (max a b) := by
    rcases le_total a b with hab | hab
    · rw [min_eq_left hab, max_eq_right hab]
      exact h
    · rw [min_eq_right hab, max_eq_left hab]
      exact h.symm
  have hguard : dayOfMonth (dayOf (min a b)) = dayOfMonth (dayOf (max a b)) := by
    rw [hminmax]
  unfold subtract
  have hwalk : dayWalk cfg.working_days (dayOfMonth (dayOf (max a b))) fuel (min a b) 0 0 =
      some (0, 0) := by
    cases fuel with
    | zero => simp [dayWalk, hguard]
    | succ n => simp [dayWalk, hguard]
  rw [hwalk]
  simp only [Option.map_some']
  congr 1
  unfold remaining_time passed_time current_work_day_end current_work_day_start atTime
    seconds_in_workday
  rw [hminmax]
  ring

/-- Witness for C5 at two timestamps of the same Monday, six hours apart. -/
theorem subtract_same_day_witness :
    dayOf (mk_datetime 2016 6 6 9 0 0) = dayOf (mk_datetime 2016 6 6 15 0 0) ∧
      subtract defaultConfig 400 (mk_datetime 2016 6 6 9 0 0) (mk_datetime 2016 6 6 15 0 0) =
        some (max (mk_datetime 2016 6 6 9 0 0) (mk_datetime 2016 6 6 15 0 0) -
          min (mk_datetime 2016 6 6 9 0 0) (mk_datetime 2016 6 6 15 0 0)) :=
  ⟨by decide, subtract_same_day defaultConfig 400 _ _ (by decide)⟩

/-- C6: for a timestamp before its day's business start, `business_datetime`
subtracts the full underflow from the end-of-day timestamp of the nearest
previous working day, stepping back one calendar day at a time past
non-working weekdays; concretely, 2016-06-06 08:30 (Monday) under the
Mon-Fri `(9, 17)` clock normalizes to Friday 2016-06-03 16:30. -/
theorem rollback_underflow :
    (∀ (cfg : Config) (t : ℤ),
        (∃ w ∈ cfg.working_days, 0 ≤ w ∧ w < 7) →
        0 ≤ cfg.end_working_hour * 3600 + cfg.end_working_minute * 60 →
        cfg.end_working_hour * 3600 + cfg.end_working_minute * 60 < 86400 →
        current_work_day_start cfg t ≤ current_work_day_end cfg t →
        t < current_work_day_start cfg t →
        ∃ k : ℕ,
          business_datetime cfg t =
            some (86400 * (dayOf t - 1 - k) +
              (cfg.end_working_hour * 3600 + cfg.end_working_minute * 60) -
              (current_work_day_start cfg t - t)) ∧
          dayWeekday (dayOf t - 1 - k) ∈ cfg.working_days ∧
          ∀ j : ℕ, j < k → dayWeekday (dayOf t - 1 - j) ∉ cfg.working_days) ∧
      business_datetime clock9to17 (mk_datetime 2016 6 6 8 30 0) =
        some (mk_datetime 2016 6 3 16 30 0) := by
  constructor
  · intro cfg t hW hE0 hE1 hSE hUn
    have hnotOv : ¬ (t > current_work_day_end cfg t) := by omega
    have hd0 : current_work_day_end cfg t - 86400 =
        86400 * (dayOf t - 1) + (cfg.end_working_hour * 3600 + cfg.end_working_minute * 60) := by
      unfold current_work_day_end atTime
      ring
    have hday : ∀ j : ℕ,
        dayOf ((current_work_day_end cfg t - 86400) + (-86400) * (j : ℤ)) = dayOf t - 1 - j := by
      intro j
      rw [hd0]
      unfold dayOf
      omega
    obtain ⟨w, hwmem, hw0, hw7⟩ := hW
    obtain ⟨j, hj7, hjw⟩ := exists_weekday_sub (dayOf t - 1) w hw0 hw7
    have hex : ∃ j : ℕ, j < 7 ∧
        dayWeekday (dayOf ((current_work_day_end cfg t - 86400) + (-86400) * (j : ℤ))) ∈
          cfg.working_days := by
      refine ⟨j, hj7, ?_⟩
      rw [hday j]
      unfold dayWeekday
      rw [hjw]
      exact hwmem
    obtain ⟨k, hk7, hscan, hkmem, hmin⟩ :=
      scanWorking_spec cfg.working_days (-86400) 7 (current_work_day_end cfg t - 86400) hex
    refine ⟨k, ?_, ?_, ?_⟩
    · unfold business_datetime
      rw [if_neg hnotOv, if_pos hUn]
      unfold rollback previous_business_day_end
      rw [hscan]
      simp only [Option.map_some']
      congr 1
      rw [hd0]
      ring
    · rw [hday k] at hkmem
      exact hkmem
    · intro j hjk
      have hj := hmin j hjk
      rw [hday j] at hj
      exact hj
  · rw [clock9to17_eq]
    decide

/-- Witness for C6's general statement at the scenario input: the
`(9, 17)` Mon-Fri clock and Monday 2016-06-06 08:30, which underflows the
09:00 start by 30 minutes. -/
theorem rollback_underflow_witness :
    (mk_datetime 2016 6 6 8 30 0 <
        current_work_day_start clock9to17 (mk_datetime 2016 6 6 8 30 0)) ∧
      ∃ k : ℕ,
        business_datetime clock9to17 (mk_datetime 2016 6 6 8 30 0) =
          some (86400 * (dayOf (mk_datetime 2016 6 6 8 30 0) - 1 - k) +
            (clock9to17.end_working_hour * 3600 + clock9to17.end_working_minute * 60) -
            (current_work_day_start clock9to17 (mk_datetime 2016 6 6 8 30 0) -
              mk_datetime 2016 6 6 8 30 0)) ∧
          dayWeekday (dayOf (mk_datetime 2016 6 6 8 30 0) - 1 - k) ∈ clock9to17.working_days ∧
          ∀ j : ℕ, j < k →
            dayWeekday (dayOf (mk_datetime 2016 6 6 8 30 0) - 1 - j) ∉ clock9to17.working_days :=
  ⟨by rw [clock9to17_eq]; decide,
    rollback_underflow.1 clock9to17 (mk_datetime 2016 6 6 8 30 0)
      ⟨0, by rw [clock9to17_eq]; decide, by decide⟩
      (by rw [clock9to17_eq]; decide) (by rw [clock9to17_eq]; decide)
      (by rw [clock9to17_eq]; decide) (by rw [clock9to17_eq]; decide)⟩

/-- C7: for a timestamp past its day's business end, `business_datetime`
adds the full overflow to the start-of-day timestamp of the nearest
following working day, advancing one calendar day at a time past
non-working weekdays; concretely, 2016-06-06 17:00:30 under the default
Mon-Fri `(8.5, 17)` clock normalizes to 2016-06-07 08:30:30. -/
theorem rollforward_overflow :
    (∀ (cfg : Config) (t : ℤ),
        (∃ w ∈ cfg.working_days, 0 ≤ w ∧ w < 7) →
        0 ≤ cfg.start_working_hour * 3600 + cfg.start_working_minute * 60 →
        cfg.start_working_hour * 3600 + cfg.start_working_minute * 60 < 86400 →
        t > current_work_day_end cfg t →
        ∃ k : ℕ,
          business_datetime cfg t =
            some (86400 * (dayOf t + 1 + k) +
              (cfg.start_working_hour * 3600 + cfg.start_working_minute * 60) +
              (t - current_work_day_end cfg t)) ∧
          dayWeekday (dayOf t + 1 + k) ∈ cfg.working_days ∧
          ∀ j : ℕ, j < k → dayWeekday (dayOf t + 1 + j) ∉ cfg.working_days) ∧
      business_datetime defaultConfig (mk_datetime 2016 6 6 17 0 30) =
        some (mk_datetime 2016 6 7 8 30 30) := by
  constructor
  · intro cfg t hW hS0 hS1 hOv
    have hd0 : current_work_day_start cfg t + 86400 =
        86400 * (dayOf t + 1) +
          (cfg.start_working_hour * 3600 + cfg.start_working_minute * 60) := by
      unfold current_work_day_start atTime
      ring
    have hday : ∀ j : ℕ,
        dayOf ((current_work_day_start cfg t + 86400) + 86400 * (j : ℤ)) = dayOf t + 1 + j := by
      intro j
      rw [hd0]
      unfold dayOf
      omega
    obtain ⟨w, hwmem, hw0, hw7⟩ := hW
    obtain ⟨j, hj7, hjw⟩ := exists_weekday_add (dayOf t + 1) w hw0 hw7
    have hex : ∃ j : ℕ, j < 7 ∧
        dayWeekday (dayOf ((current_work_day_start cfg t + 86400) + 86400 * (j : ℤ))) ∈
          cfg.working_days := by
      refine ⟨j, hj7, ?_⟩
      rw [hday j]
      unfold dayWeekday
      rw [hjw]
      exact hwmem
    obtain ⟨k, hk7, hscan, hkmem, hmin⟩ :=
      scanWorking_spec cfg.working_days 86400 7 (current_work_day_start cfg t + 86400) hex
    refine ⟨k, ?_, ?_, ?_⟩
    · unfold business_datetime
      rw [if_pos hOv]
      unfold rollforward next_business_day_start
      rw [hscan]
      simp only [Option.map_some']
      congr 1
      rw [hd0]
      ring
    · rw [hday k] at hkmem
      exact hkmem
    · intro j hjk
      have hj := hmin j hjk
      rw [hday j] at hj
      exact hj
  · rw [defaultConfig_eq]
    decide

/-- Witness for C7's general statement at the scenario input: the default
Mon-Fri `(8.5, 17)` clock and 2016-06-06 17:00:30, thirty seconds past the
17:00 end. -/
theorem rollforward_overflow_witness :
    (mk_datetime 2016 6 6 17 0 30 >
        current_work_day_end defaultConfig (mk_datetime 2016 6 6 17 0 30)) ∧
      ∃ k : ℕ,
        business_datetime defaultConfig (mk_datetime 2016 6 6 17 0 30) =
          some (86400 * (dayOf (mk_datetime 2016 6 6 17 0 30) + 1 + k) +
            (defaultConfig.start_working_hour * 3600 + defaultConfig.start_working_minute * 60) +
            (mk_datetime 2016 6 6 17 0 30 -
              current_work_day_end defaultConfig (mk_datetime 2016 6 6 17 0 30))) ∧
          dayWeekday (dayOf (mk_datetime 2016 6 6 17 0 30) + 1 + k) ∈
            defaultConfig.working_days ∧
          ∀ j : ℕ, j < k →
            dayWeekday (dayOf (mk_datetime 2016 6 6 17 0 30) + 1 + j) ∉
              defaultConfig.working_days :=
  ⟨by rw [defaultConfig_eq]; decide,
    rollforward_overflow.1 defaultConfig (mk_datetime 2016 6 6 17 0 30)
      ⟨0, by rw [defaultConfig_eq]; decide, by decide⟩
      (by rw [defaultConfig_eq]; decide) (by rw [defaultConfig_eq]; decide)
      (by rw [defaultConfig_eq]; decide)⟩

/-- C8: a timestamp lying between its day's business start and end (bounds
inclusive) is returned unchanged by `business_datetime`; concretely,
Monday 2016-06-06 08:30, exactly at the default clock's start bound, is
unchanged. -/
theorem business_datetime_in_window :
    (∀ (cfg : Config) (t : ℤ),
        current_work_day_start cfg t ≤ t → t ≤ current_work_day_end cfg t →
        dayWeekday (dayOf t) ∈ cfg.working_days →
        business_datetime cfg t = some t) ∧
      business_datetime defaultConfig (mk_datetime 2016 6 6 8 30 0) =
        some (mk_datetime 2016 6 6 8 30 0) := by
  constructor
  · intro cfg t h1 h2 _
    exact business_of_inWindow cfg t h1 h2
  · rw [defaultConfig_eq]
    decide

/-- Witness for C8 at the scenario input: Monday 2016-06-06 08:30 under
the default clock, which lies at the start bound and is a working weekday. -/
theorem business_datetime_in_window_witness :
    (current_work_day_start defaultConfig (mk_datetime 2016 6 6 8 30 0) ≤
          mk_datetime 2016 6 6 8 30 0 ∧
        mk_datetime 2016 6 6 8 30 0 ≤
          current_work_day_end defaultConfig (mk_datetime 2016 6 6 8 30 0) ∧
        dayWeekday (dayOf (mk_datetime 2016 6 6 8 30 0)) ∈ defaultConfig.working_days) ∧
      business_datetime defaultConfig (mk_datetime 2016 6 6 8 30 0) =
        some (mk_datetime 2016 6 6 8 30 0) :=
  ⟨⟨by rw [defaultConfig_eq]; decide, by rw [defaultConfig_eq]; decide,
      by rw [defaultConfig_eq]; decide⟩,
    business_datetime_in_window.1 defaultConfig (mk_datetime 2016 6 6 8 30 0)
      (by rw [defaultConfig_eq]; decide) (by rw [defaultConfig_eq]; decide)
      (by rw [defaultConfig_eq]; decide)⟩

/-- C9: the holidays constructor argument has no effect on any computed
result.  For identical remaining parameters and arbitrary holiday
arguments, normalization, `subtract` and `calc_diff` return identical
results. -/
theorem holidays_noninterference (wh wh2 : ℚ × ℚ) (wd wd2 : List ℤ)
    (h1 h2 h3 h4 : Option (List ℤ)) (t a b sT oT : ℤ) (fuel : ℕ) :
    business_datetime (mkConfig wh wd h1) t = business_datetime (mkConfig wh wd h2) t ∧
      subtract (mkConfig wh wd h1) fuel a b = subtract (mkConfig wh wd h2) fuel a b ∧
      calc_diff (mkConfig wh wd h1) (mkConfig wh2 wd2 h3) sT oT fuel =
        calc_diff (mkConfig wh wd h2) (mkConfig wh2 wd2 h4) sT oT fuel :=
  ⟨rfl, rfl, rfl⟩

/-- C10: subtracting a plain `timedelta` from a `BusinessDatetime` builds
the new object with the constructor's default configuration, discarding
the receiver's working hours, working days and holidays. -/
theorem sub_timedelta_default_config (cfg : Config) (t td b : ℤ)
    (h : business_datetime cfg t = some b) :
    bd_sub_timedelta cfg t td = some (defaultConfig, b - td) := by
  unfold bd_sub_timedelta
  rw [h]
  rfl

/-- Witness for C10 at a non-default clock, showing the receiver's
configuration is indeed replaced by the default one. -/
theorem sub_timedelta_default_config_witness :
    clock9to17 ≠ defaultConfig ∧
      business_datetime clock9to17 (mk_datetime 2016 6 6 10 0 0) =
        some (mk_datetime 2016 6 6 10 0 0) ∧
      bd_sub_timedelta clock9to17 (mk_datetime 2016 6 6 10 0 0) 60 =
        some (defaultConfig, mk_datetime 2016 6 6 10 0 0 - 60) :=
  ⟨by rw [clock9to17_eq, defaultConfig_eq]; decide,
    by rw [clock9to17_eq]; decide,
    sub_timedelta_default_config clock9to17 (mk_datetime 2016 6 6 10 0 0) 60
      (mk_datetime 2016 6 6 10 0 0) (by rw [clock9to17_eq]; decide)⟩
